import Mathlib

/-!
Shallow embedding of the S-FSM tactical decision layer (src/fsm/base_fsm.py,
src/fsm/acc_fsm.py, src/fsm/lka_acc_fsm.py, src/fsm/highway_pilot_fsm.py).

Python floats are modelled as rationals; the value `float('inf')` produced by
the safety math (time-to-collision, lane gaps) is modelled by the explicit
type `PFloat` below.  Mutating methods are modelled by state passing: each
`update` takes the machine record and returns the emitted action together with
the successor machine record.  Transition records carry diagnostic strings in
the source; only the `time_in_previous_state` field is ever read back (by
`get_current_time`), so the history is modelled as the list of those times.
-/

namespace SFSM

/-- Result type of the safety math: either a finite rational or the Python
value `float('inf')`. -/
inductive PFloat where
  | fin (q : ℚ)
  | inf
deriving DecidableEq, Repr

/-- Comparison `x < q` for a possibly-infinite `x` against a finite rational,
as Python evaluates it (`inf < q` is `False`). -/
def PFloat.ltQ : PFloat → ℚ → Bool
  | .fin t, q => t < q
  | .inf, _ => false

/-- Comparison `x > q` for a possibly-infinite `x` against a finite rational,
as Python evaluates it (`inf > q` is `True`). -/
def PFloat.gtQ : PFloat → ℚ → Bool
  | .fin t, q => q < t
  | .inf, _ => true

/-- Minimum of two possibly-infinite values (Python `min`). -/
def PFloat.minP : PFloat → PFloat → PFloat
  | .fin a, .fin b => .fin (min a b)
  | .fin a, .inf => .fin a
  | .inf, x => x

/-- One vehicle record of an observation: lane index, relative longitudinal
offset (positive = ahead of ego) and velocity.  The identifier and relative
lateral offset present in the source dictionaries are never read by the
decision engine and are omitted. -/
structure Vehicle where
  lane_index : Int
  relative_longitudinal : ℚ
  velocity : ℚ
deriving DecidableEq, Repr

/-- Ego record of an observation: position (x, y), velocity and lane index. -/
structure Ego where
  position : ℚ × ℚ
  velocity : ℚ
  lane_index : Int
deriving DecidableEq, Repr

/-- One per-cycle observation: ego record plus the list of nearby vehicles. -/
structure Obs where
  ego : Ego
  vehicles : List Vehicle
deriving DecidableEq, Repr

namespace BaseFSM

/-- BaseFSM._calculate_ttc: time-to-collision with a vehicle; `inf` when the
vehicle is behind (offset ≤ 0) or the ego is not closing (rel. velocity ≤ 0),
otherwise the offset divided by the closing rate. -/
def calculate_ttc (ego_velocity : ℚ) (vehicle : Vehicle) : PFloat :=
  let rel_long := vehicle.relative_longitudinal
  if rel_long ≤ 0 then .inf
  else
    let rel_velocity := ego_velocity - vehicle.velocity
    if rel_velocity ≤ 0 then .inf
    else .fin (rel_long / rel_velocity)

/-- BaseFSM._find_leader: nearest vehicle in the ego lane with strictly
positive relative longitudinal offset; Python `min` with a key returns the
first minimal element, modelled by the left fold below. -/
def find_leader (obs : Obs) : Option Vehicle :=
  let candidates := obs.vehicles.filter
    (fun v => v.lane_index == obs.ego.lane_index && decide (0 < v.relative_longitudinal))
  match candidates with
  | [] => none
  | c :: cs => some (cs.foldl
      (fun best v => if v.relative_longitudinal < best.relative_longitudinal then v else best) c)

/-- BaseFSM._measure_gap_on_lane: smallest gap to vehicles on `target_lane`;
`inf` if the lane holds no vehicle.  The rear gap is the Python expression
`abs(max(rear offsets, default=-inf))`, which is `inf` when no vehicle is
behind. -/
def measure_gap_on_lane (obs : Obs) (target_lane : Int) : PFloat :=
  let vehicles_on_lane := obs.vehicles.filter (fun v => v.lane_index == target_lane)
  match vehicles_on_lane with
  | [] => .inf
  | _ :: _ =>
    let front := vehicles_on_lane.filter (fun v => decide (0 < v.relative_longitudinal))
    let rear := vehicles_on_lane.filter (fun v => decide (v.relative_longitudinal < 0))
    let gap_front : PFloat := match front with
      | [] => .inf
      | f :: fs => .fin (fs.foldl (fun a v => min a v.relative_longitudinal) f.relative_longitudinal)
    let gap_rear : PFloat := match rear with
      | [] => .inf
      | r :: rs => .fin |rs.foldl (fun a v => max a v.relative_longitudinal) r.relative_longitudinal|
    PFloat.minP gap_front gap_rear

end BaseFSM

/-- States of the ACC-only machine (acc_fsm.py, class ACCState). -/
inductive ACCState where
  | CRUISING
  | FOLLOWING
  | EMERGENCY_BRAKE
deriving DecidableEq, Repr

/-- Machine record of ACCFSM: the tactical parameters extracted in __init__,
the BaseFSM bookkeeping fields and the action-smoothing fields. -/
structure ACCM where
  target_velocity : ℚ
  time_headway : ℚ
  emergency_ttc : ℚ
  min_gap : ℚ
  comfortable_distance_ratio : ℚ
  warning_distance_ratio : ℚ
  critical_ttc : ℚ
  current_state : ACCState
  time_in_state : ℚ
  transition_history : List ℚ
  last_action : Nat
  action_hold_time : ℚ
  min_action_hold : ℚ
deriving DecidableEq, Repr

namespace ACCFSM

/-- BaseFSM._transition_to specialised to the ACC machine: no-op when the new
state equals the current one, otherwise append the time spent in the previous
state to the history, switch state and reset the in-state timer. -/
def transition_to (m : ACCM) (new_state : ACCState) : ACCM :=
  if new_state ≠ m.current_state then
    { m with transition_history := m.transition_history ++ [m.time_in_state],
             current_state := new_state, time_in_state := 0 }
  else m

/-- Speed control of _handle_cruising_state after the leader check: a
proportional controller with a dead zone around the target velocity. -/
def cruising_speed_action (m : ACCM) (ego_velocity : ℚ) : Nat :=
  let velocity_error := m.target_velocity - ego_velocity
  if 1 < velocity_error then 3
  else if velocity_error < -1 then 4
  else if (0.5 : ℚ) < |velocity_error| then (if 0 < velocity_error then 3 else 4)
  else 1

/-- ACCFSM._handle_cruising_state. -/
def handle_cruising_state (m : ACCM) (ego_velocity : ℚ) (leader : Option Vehicle) :
    Nat × ACCM :=
  match leader with
  | some L =>
    let distance := L.relative_longitudinal
    let safe_distance := max m.min_gap (m.time_headway * ego_velocity)
    if distance < safe_distance * m.warning_distance_ratio then
      (4, transition_to m .FOLLOWING)
    else (cruising_speed_action m ego_velocity, m)
  | none => (cruising_speed_action m ego_velocity, m)

/-- ACCFSM._handle_following_state: five distance zones relative to the safe
distance, with an exit to CRUISING when the leader disappears or the gap
exceeds 1.5 times the safe distance. -/
def handle_following_state (m : ACCM) (ego_velocity : ℚ) (leader : Option Vehicle) :
    Nat × ACCM :=
  match leader with
  | none => (3, transition_to m .CRUISING)
  | some L =>
    let distance := L.relative_longitudinal
    let safe_distance := max m.min_gap (m.time_headway * ego_velocity)
    let velocity_diff := ego_velocity - L.velocity
    if safe_distance * (1.5 : ℚ) < distance then (3, transition_to m .CRUISING)
    else if distance < safe_distance * (0.7 : ℚ) then (4, m)
    else if distance < safe_distance * (0.9 : ℚ) then
      (if 2 < velocity_diff then (4, m) else (1, m))
    else if distance < safe_distance * m.comfortable_distance_ratio then
      (if |velocity_diff| < (0.5 : ℚ) then (1, m)
       else if (1.5 : ℚ) < velocity_diff then (4, m)
       else if (0.5 : ℚ) < velocity_diff then (4, m)
       else if velocity_diff < -(1.5 : ℚ) then (3, m)
       else (3, m))
    else if distance < safe_distance * (1.5 : ℚ) then
      (if velocity_diff < -1 then (3, m) else (1, m))
    else
      (if velocity_diff < -(1.5 : ℚ) then (3, m) else (1, m))

/-- ACCFSM._handle_emergency_brake_state: progressive recovery from the
emergency state. -/
def handle_emergency_brake_state (m : ACCM) (ego_velocity : ℚ) (leader : Option Vehicle) :
    Nat × ACCM :=
  match leader with
  | none => (3, transition_to m .CRUISING)
  | some L =>
    let ttc := BaseFSM.calculate_ttc ego_velocity L
    let distance := L.relative_longitudinal
    let safe_distance := max m.min_gap (m.time_headway * ego_velocity)
    let velocity_diff := ego_velocity - L.velocity
    if m.min_gap * (1.2 : ℚ) < distance ∧ ttc.gtQ (m.critical_ttc * (1.5 : ℚ)) then
      (1, transition_to m .FOLLOWING)
    else if ttc.gtQ m.emergency_ttc then
      (if distance < safe_distance * (0.8 : ℚ) then (4, transition_to m .FOLLOWING)
       else (1, transition_to m .FOLLOWING))
    else if ego_velocity < 15 then
      (if m.min_gap * (0.9 : ℚ) < distance then
         (if 1 < velocity_diff then (4, m) else (1, m))
       else (4, m))
    else if ttc.gtQ m.critical_ttc then
      (if m.min_gap * (0.85 : ℚ) < distance then (4, transition_to m .FOLLOWING)
       else (4, m))
    else (4, m)

/-- Priority-1 block of ACCFSM.update: the two emergency levels return the
maximum-braking action immediately (Sum.inl), the warning level may nudge the
state towards FOLLOWING and falls through (Sum.inr), as does the no-leader
case. -/
def emergency_check (m : ACCM) (ego_velocity : ℚ) (leader : Option Vehicle) :
    Sum (Nat × ACCM) ACCM :=
  match leader with
  | none => Sum.inr m
  | some L =>
    let ttc := BaseFSM.calculate_ttc ego_velocity L
    let distance := L.relative_longitudinal
    let safe_distance := max m.min_gap (m.time_headway * ego_velocity)
    if distance < m.min_gap * (0.8 : ℚ) ∧ ttc.ltQ m.critical_ttc then
      Sum.inl (4, { transition_to m .EMERGENCY_BRAKE with last_action := 4, action_hold_time := 0 })
    else if ttc.ltQ m.emergency_ttc ∧ distance < safe_distance * (0.7 : ℚ) then
      Sum.inl (4, { transition_to m .EMERGENCY_BRAKE with last_action := 4, action_hold_time := 0 })
    else if distance < m.min_gap ∧ ttc.gtQ m.critical_ttc then
      Sum.inr (if m.current_state ≠ ACCState.FOLLOWING ∧ m.current_state ≠ ACCState.EMERGENCY_BRAKE
               then transition_to m .FOLLOWING else m)
    else Sum.inr m

/-- Priority-2 block of ACCFSM.update: the dispatch on the current state.
The Python dispatch chain ends in an unreachable default (the match here is
exhaustive over the declared enum). -/
def dispatch (m : ACCM) (ego_velocity : ℚ) (leader : Option Vehicle) : Nat × ACCM :=
  match m.current_state with
  | .CRUISING => handle_cruising_state m ego_velocity leader
  | .FOLLOWING => handle_following_state m ego_velocity leader
  | .EMERGENCY_BRAKE => handle_emergency_brake_state m ego_velocity leader

/-- ACCFSM.update: advance the timers, run the emergency check, dispatch on
the current state and apply action smoothing to the candidate action. -/
def update (m0 : ACCM) (obs : Obs) (dt : ℚ) : Nat × ACCM :=
  let m := { m0 with time_in_state := m0.time_in_state + dt,
                     action_hold_time := m0.action_hold_time + dt }
  let ego_velocity := obs.ego.velocity
  let leader := BaseFSM.find_leader obs
  match emergency_check m ego_velocity leader with
  | Sum.inl result => result
  | Sum.inr m1 =>
    let am := dispatch m1 ego_velocity leader
    let action := am.1
    let m2 := am.2
    if action ≠ m2.last_action ∧ m2.action_hold_time < m2.min_action_hold then
      (m2.last_action, m2)
    else if action ≠ m2.last_action then
      (action, { m2 with action_hold_time := 0, last_action := action })
    else (action, { m2 with last_action := action })

end ACCFSM

/-- States of the LKA+ACC machine (lka_acc_fsm.py, class LKAACCState). -/
inductive LKAACCState where
  | CRUISING
  | FOLLOWING
  | LANE_KEEPING
  | LANE_CORRECTION
  | EMERGENCY_BRAKE
deriving DecidableEq, Repr

/-- Machine record of LKAACCFSM: ACC tactical parameters plus the LKA
parameters and the BaseFSM bookkeeping fields. -/
structure LKAM where
  target_velocity : ℚ
  time_headway : ℚ
  emergency_ttc : ℚ
  min_gap : ℚ
  lane_center_tolerance : ℚ
  max_lateral_acceleration : ℚ
  min_lane_confidence : ℚ
  current_state : LKAACCState
  time_in_state : ℚ
  transition_history : List ℚ
deriving DecidableEq, Repr

namespace LKAACCFSM

/-- BaseFSM._transition_to specialised to the LKA+ACC machine. -/
def transition_to (m : LKAM) (new_state : LKAACCState) : LKAM :=
  if new_state ≠ m.current_state then
    { m with transition_history := m.transition_history ++ [m.time_in_state],
             current_state := new_state, time_in_state := 0 }
  else m

/-- LKAACCFSM._get_lane_offset: ego lateral position minus the centre of the
indexed lane, with the 4 m lane width hard-coded in the source. -/
def get_lane_offset (obs : Obs) : ℚ :=
  let ego_pos_y := obs.ego.position.2
  let lane_center_y := (obs.ego.lane_index : ℚ) * 4
  ego_pos_y - lane_center_y

/-- LKAACCFSM._handle_cruising_state: note the safe distance here is plainly
`time_headway * ego_velocity`, without the `min_gap` floor of the ACC
machine. -/
def handle_cruising_state (m : LKAM) (ego_velocity : ℚ) (leader : Option Vehicle) :
    Nat × LKAM :=
  let speed_control : Nat :=
    if ego_velocity < m.target_velocity - (0.5 : ℚ) then 3
    else if m.target_velocity + (0.5 : ℚ) < ego_velocity then 4
    else 1
  match leader with
  | some L =>
    let distance := L.relative_longitudinal
    let safe_distance := m.time_headway * ego_velocity
    if distance < safe_distance then (4, transition_to m .FOLLOWING)
    else (speed_control, m)
  | none => (speed_control, m)

/-- LKAACCFSM._handle_following_state. -/
def handle_following_state (m : LKAM) (ego_velocity : ℚ) (leader : Option Vehicle) :
    Nat × LKAM :=
  match leader with
  | none => (3, transition_to m .CRUISING)
  | some L =>
    let distance := L.relative_longitudinal
    let safe_distance := m.time_headway * ego_velocity
    if safe_distance * (1.2 : ℚ) < distance then (3, m)
    else if distance < safe_distance * (0.8 : ℚ) then (4, m)
    else
      let velocity_diff := ego_velocity - L.velocity
      if 1 < velocity_diff then (4, m)
      else if velocity_diff < -1 then (3, m)
      else (1, m)

/-- LKAACCFSM._handle_lane_correction_state: exit once the offset is below
half the tolerance, otherwise gently reduce speed while correcting. -/
def handle_lane_correction_state (m : LKAM) (ego_velocity : ℚ) (leader : Option Vehicle)
    (lane_offset : ℚ) : Nat × LKAM :=
  if |lane_offset| < m.lane_center_tolerance * (0.5 : ℚ) then
    match leader with
    | some _ => (1, transition_to m .FOLLOWING)
    | none => (1, transition_to m .CRUISING)
  else if m.target_velocity * (0.9 : ℚ) < ego_velocity then (4, m)
  else (1, m)

/-- LKAACCFSM._handle_emergency_brake_state. -/
def handle_emergency_brake_state (m : LKAM) (ego_velocity : ℚ) (leader : Option Vehicle) :
    Nat × LKAM :=
  match leader with
  | none => (1, transition_to m .CRUISING)
  | some L =>
    let ttc := BaseFSM.calculate_ttc ego_velocity L
    let distance := L.relative_longitudinal
    let safe_distance := m.time_headway * ego_velocity
    if ttc.gtQ (m.emergency_ttc * (1.5 : ℚ)) ∧ safe_distance * (0.7 : ℚ) < distance then
      (1, transition_to m .FOLLOWING)
    else if ego_velocity < 20 then (1, m)
    else (4, m)

/-- Priority-2 and priority-3 blocks of LKAACCFSM.update: the lane position
check, then the dispatch on the current state.  The LANE_KEEPING state is
never dispatched in the source and falls through to the final IDLE. -/
def post_emergency (m0 : LKAM) (obs : Obs) (ego_velocity : ℚ) (leader : Option Vehicle) :
    Nat × LKAM :=
  let lane_offset := get_lane_offset obs
  let m := if m0.lane_center_tolerance < |lane_offset| then transition_to m0 .LANE_CORRECTION
           else m0
  match m.current_state with
  | .CRUISING => handle_cruising_state m ego_velocity leader
  | .FOLLOWING => handle_following_state m ego_velocity leader
  | .LANE_CORRECTION => handle_lane_correction_state m ego_velocity leader lane_offset
  | .EMERGENCY_BRAKE => handle_emergency_brake_state m ego_velocity leader
  | .LANE_KEEPING => (1, m)

/-- LKAACCFSM.update: advance the timer, run the TTC emergency check, then
the lane position check and the state dispatch. -/
def update (m0 : LKAM) (obs : Obs) (dt : ℚ) : Nat × LKAM :=
  let m := { m0 with time_in_state := m0.time_in_state + dt }
  let ego_velocity := obs.ego.velocity
  let leader := BaseFSM.find_leader obs
  match leader with
  | some L =>
    if (BaseFSM.calculate_ttc ego_velocity L).ltQ m.emergency_ttc then
      (4, transition_to m .EMERGENCY_BRAKE)
    else post_emergency m obs ego_velocity leader
  | none => post_emergency m obs ego_velocity leader

end LKAACCFSM

/-- States of the Highway Pilot machine (highway_pilot_fsm.py, class
HighwayPilotState). -/
inductive HighwayPilotState where
  | CRUISING
  | FOLLOWING
  | LANE_KEEPING
  | LANE_CORRECTION
  | EMERGENCY_BRAKE
  | EVALUATING_OVERTAKE
  | PREPARING_LC_LEFT
  | PREPARING_LC_RIGHT
  | EXECUTING_LC_LEFT
  | EXECUTING_LC_RIGHT
  | ABORTING_LANE_CHANGE
deriving DecidableEq, Repr

/-- Current-state value of a HighwayPilotFSM instance.  HighwayPilotFSM
inherits the LANE_CORRECTION and EMERGENCY_BRAKE handlers from LKAACCFSM via
super(); those handlers transition the instance into members of the
LKAACCState enum, which Python treats as distinct from the
HighwayPilotState members of the same name.  The current state of the
instance therefore ranges over the disjoint union of the two enums. -/
inductive HPCur where
  | hp (s : HighwayPilotState)
  | lka (s : LKAACCState)
deriving DecidableEq, Repr

/-- Machine record of HighwayPilotFSM: LKAACCFSM parameters, the lane-change
and overtaking parameters, the BaseFSM bookkeeping fields and the
lane-change context. -/
structure HPM where
  target_velocity : ℚ
  time_headway : ℚ
  emergency_ttc : ℚ
  min_gap : ℚ
  lane_center_tolerance : ℚ
  max_lateral_acceleration : ℚ
  min_lane_confidence : ℚ
  min_gap_for_lane_change : ℚ
  safe_gap_front : ℚ
  safe_gap_rear : ℚ
  lane_change_duration : ℚ
  velocity_delta_threshold : ℚ
  min_following_time_before_overtake : ℚ
  abort_if_ttc_during_lc : ℚ
  abort_if_gap_shrinks_by : ℚ
  current_state : HPCur
  time_in_state : ℚ
  transition_history : List ℚ
  lane_change_start_time : ℚ
  initial_gap_at_lc_start : Option PFloat
deriving DecidableEq, Repr

namespace HighwayPilotFSM

/-- BaseFSM._transition_to specialised to the Highway Pilot machine. -/
def transition_to (m : HPM) (new_state : HPCur) : HPM :=
  if new_state ≠ m.current_state then
    { m with transition_history := m.transition_history ++ [m.time_in_state],
             current_state := new_state, time_in_state := 0 }
  else m

/-- BaseFSM.get_current_time: the sum of the recorded times in previous
states. -/
def get_current_time (m : HPM) : ℚ :=
  m.transition_history.sum

/-- HighwayPilotFSM._is_in_lane_change_state. -/
def is_in_lane_change_state (m : HPM) : Bool :=
  m.current_state == .hp .EXECUTING_LC_LEFT || m.current_state == .hp .EXECUTING_LC_RIGHT

/-- Python evaluation of `initial_gap - current_gap > threshold` on possibly
infinite floats: `inf - b = inf` exceeds every finite threshold,
`a - inf = -inf` does not, and `inf - inf = nan` compares false. -/
def gap_shrunk_by_more_than (initial current : PFloat) (threshold : ℚ) : Bool :=
  match initial, current with
  | .fin a, .fin b => threshold < a - b
  | .fin _, .inf => false
  | .inf, .fin _ => true
  | .inf, .inf => false

/-- HighwayPilotFSM._check_lane_change_abort_conditions (the Boolean
component; the reason string is diagnostic only). -/
def check_lane_change_abort_conditions (m : HPM) (obs : Obs) (ego_velocity : ℚ)
    (leader : Option Vehicle) : Bool :=
  let ttc_abort : Bool :=
    match leader with
    | some L => (BaseFSM.calculate_ttc ego_velocity L).ltQ m.abort_if_ttc_during_lc
    | none => false
  if ttc_abort then true
  else
    match m.initial_gap_at_lc_start with
    | none => false
    | some initial_gap =>
      let ego_lane := obs.ego.lane_index
      match m.current_state with
      | .hp .EXECUTING_LC_LEFT =>
        gap_shrunk_by_more_than initial_gap (BaseFSM.measure_gap_on_lane obs (ego_lane - 1))
          m.abort_if_gap_shrinks_by
      | .hp .EXECUTING_LC_RIGHT =>
        gap_shrunk_by_more_than initial_gap (BaseFSM.measure_gap_on_lane obs (ego_lane + 1))
          m.abort_if_gap_shrinks_by
      | _ => false

/-- HighwayPilotFSM._handle_cruising_state_hp: like the LKA cruising handler
(safe distance without the min_gap floor) but targeting the Highway Pilot
FOLLOWING state. -/
def handle_cruising_state_hp (m : HPM) (ego_velocity : ℚ) (leader : Option Vehicle) :
    Nat × HPM :=
  let speed_control : Nat :=
    if ego_velocity < m.target_velocity - (0.5 : ℚ) then 3
    else if m.target_velocity + (0.5 : ℚ) < ego_velocity then 4
    else 1
  match leader with
  | some L =>
    let distance := L.relative_longitudinal
    let safe_distance := m.time_headway * ego_velocity
    if distance < safe_distance then (4, transition_to m (.hp .FOLLOWING))
    else (speed_control, m)
  | none => (speed_control, m)

/-- HighwayPilotFSM._handle_following_state_hp: following behaviour plus the
promotion to EVALUATING_OVERTAKE after trailing a measurably slower leader
for the minimum dwell time with the gap above the safety floor. -/
def handle_following_state_hp (m : HPM) (ego_velocity : ℚ) (leader : Option Vehicle) :
    Nat × HPM :=
  match leader with
  | none => (3, transition_to m (.hp .CRUISING))
  | some L =>
    let distance := L.relative_longitudinal
    let safe_distance := m.time_headway * ego_velocity
    let velocity_diff := ego_velocity - L.velocity
    if m.min_following_time_before_overtake < m.time_in_state ∧
        velocity_diff < m.velocity_delta_threshold ∧
        m.min_gap * (0.8 : ℚ) < distance then
      (1, transition_to m (.hp .EVALUATING_OVERTAKE))
    else if safe_distance * (1.1 : ℚ) < distance then (3, m)
    else if distance < safe_distance * (0.9 : ℚ) then (4, m)
    else if 1 < velocity_diff then (4, m)
    else if velocity_diff < -1 then (3, m)
    else (1, m)

/-- HighwayPilotFSM._handle_evaluating_overtake_state: check the left lane
first (preferred), then the right lane (lanes 0..3), else fall back to
FOLLOWING. -/
def handle_evaluating_overtake_state (m : HPM) (obs : Obs) (leader : Option Vehicle)
    (ego_lane : Int) : Nat × HPM :=
  match leader with
  | none => (3, transition_to m (.hp .CRUISING))
  | some _ =>
    if 0 < ego_lane ∧
        (BaseFSM.measure_gap_on_lane obs (ego_lane - 1)).gtQ m.min_gap_for_lane_change then
      (1, transition_to m (.hp .PREPARING_LC_LEFT))
    else if ego_lane < 3 ∧
        (BaseFSM.measure_gap_on_lane obs (ego_lane + 1)).gtQ m.min_gap_for_lane_change then
      (1, transition_to m (.hp .PREPARING_LC_RIGHT))
    else (4, transition_to m (.hp .FOLLOWING))

/-- HighwayPilotFSM._handle_preparing_lane_change_left: final gap check, then
record the lane-change context and emit LANE_LEFT. -/
def handle_preparing_lane_change_left (m : HPM) (obs : Obs) (ego_lane : Int) : Nat × HPM :=
  let left_gap := BaseFSM.measure_gap_on_lane obs (ego_lane - 1)
  if left_gap.ltQ m.safe_gap_front then (4, transition_to m (.hp .FOLLOWING))
  else
    let m := { m with lane_change_start_time := get_current_time m,
                      initial_gap_at_lc_start := some left_gap }
    (0, transition_to m (.hp .EXECUTING_LC_LEFT))

/-- HighwayPilotFSM._handle_preparing_lane_change_right. -/
def handle_preparing_lane_change_right (m : HPM) (obs : Obs) (ego_lane : Int) : Nat × HPM :=
  let right_gap := BaseFSM.measure_gap_on_lane obs (ego_lane + 1)
  if right_gap.ltQ m.safe_gap_front then (4, transition_to m (.hp .FOLLOWING))
  else
    let m := { m with lane_change_start_time := get_current_time m,
                      initial_gap_at_lc_start := some right_gap }
    (2, transition_to m (.hp .EXECUTING_LC_RIGHT))

/-- HighwayPilotFSM._handle_executing_lane_change_left: after the settle time
the lane change is considered complete. -/
def handle_executing_lane_change_left (m : HPM) : Nat × HPM :=
  if (0.5 : ℚ) < m.time_in_state then (3, transition_to m (.hp .CRUISING))
  else (1, m)

/-- HighwayPilotFSM._handle_executing_lane_change_right. -/
def handle_executing_lane_change_right (m : HPM) : Nat × HPM :=
  if (0.5 : ℚ) < m.time_in_state then (3, transition_to m (.hp .CRUISING))
  else (1, m)

/-- HighwayPilotFSM._handle_aborting_lane_change: decelerate during the abort
manoeuvre, then resume FOLLOWING. -/
def handle_aborting_lane_change (m : HPM) : Nat × HPM :=
  if (1 : ℚ) < m.time_in_state then (1, transition_to m (.hp .FOLLOWING))
  else (4, m)

/-- LKAACCFSM._handle_lane_correction_state as inherited by the Highway Pilot
instance through super(): identical logic, but the transitions target the
LKAACCState enum members, not the HighwayPilotState ones. -/
def handle_lane_correction_state (m : HPM) (ego_velocity : ℚ) (leader : Option Vehicle)
    (lane_offset : ℚ) : Nat × HPM :=
  if |lane_offset| < m.lane_center_tolerance * (0.5 : ℚ) then
    match leader with
    | some _ => (1, transition_to m (.lka .FOLLOWING))
    | none => (1, transition_to m (.lka .CRUISING))
  else if m.target_velocity * (0.9 : ℚ) < ego_velocity then (4, m)
  else (1, m)

/-- LKAACCFSM._handle_emergency_brake_state as inherited by the Highway Pilot
instance through super(): transitions target the LKAACCState enum members. -/
def handle_emergency_brake_state (m : HPM) (ego_velocity : ℚ) (leader : Option Vehicle) :
    Nat × HPM :=
  match leader with
  | none => (1, transition_to m (.lka .CRUISING))
  | some L =>
    let ttc := BaseFSM.calculate_ttc ego_velocity L
    let distance := L.relative_longitudinal
    let safe_distance := m.time_headway * ego_velocity
    if ttc.gtQ (m.emergency_ttc * (1.5 : ℚ)) ∧ safe_distance * (0.7 : ℚ) < distance then
      (1, transition_to m (.lka .FOLLOWING))
    else if ego_velocity < 20 then (1, m)
    else (4, m)

/-- State dispatch of HighwayPilotFSM.update (priority 3).  The Python elif
chain compares with HighwayPilotState members only; a current state from the
LKAACCState enum (left behind by an inherited handler) matches none of them
and falls through to the final IDLE, as does HighwayPilotState.LANE_KEEPING. -/
def dispatch (m : HPM) (obs : Obs) (ego_velocity : ℚ) (leader : Option Vehicle)
    (ego_lane : Int) : Nat × HPM :=
  match m.current_state with
  | .hp .CRUISING => handle_cruising_state_hp m ego_velocity leader
  | .hp .FOLLOWING => handle_following_state_hp m ego_velocity leader
  | .hp .EVALUATING_OVERTAKE => handle_evaluating_overtake_state m obs leader ego_lane
  | .hp .PREPARING_LC_LEFT => handle_preparing_lane_change_left m obs ego_lane
  | .hp .PREPARING_LC_RIGHT => handle_preparing_lane_change_right m obs ego_lane
  | .hp .EXECUTING_LC_LEFT => handle_executing_lane_change_left m
  | .hp .EXECUTING_LC_RIGHT => handle_executing_lane_change_right m
  | .hp .ABORTING_LANE_CHANGE => handle_aborting_lane_change m
  | .hp .LANE_CORRECTION =>
    handle_lane_correction_state m ego_velocity leader (LKAACCFSM.get_lane_offset obs)
  | .hp .EMERGENCY_BRAKE => handle_emergency_brake_state m ego_velocity leader
  | .hp .LANE_KEEPING => (1, m)
  | .lka _ => (1, m)

/-- HighwayPilotFSM.update: advance the timer, run the TTC emergency check,
the lane-change abort check, then the state dispatch.  The debugging print
statements of the source have no effect on the returned action or state and
are not modelled. -/
def update (m0 : HPM) (obs : Obs) (dt : ℚ) : Nat × HPM :=
  let m := { m0 with time_in_state := m0.time_in_state + dt }
  let ego_velocity := obs.ego.velocity
  let ego_lane := obs.ego.lane_index
  let leader := BaseFSM.find_leader obs
  let emergency : Bool :=
    match leader with
    | some L => (BaseFSM.calculate_ttc ego_velocity L).ltQ m.emergency_ttc
    | none => false
  if emergency then (4, transition_to m (.hp .EMERGENCY_BRAKE))
  else if is_in_lane_change_state m ∧
      check_lane_change_abort_conditions m obs ego_velocity leader then
    (4, transition_to m (.hp .ABORTING_LANE_CHANGE))
  else dispatch m obs ego_velocity leader ego_lane

end HighwayPilotFSM

/-- Specification-worded gap reading used to compare against
BaseFSM._measure_gap_on_lane: the nearest strictly-positive offset among the
vehicles of the target lane (`inf` when no vehicle is ahead). -/
def nearest_ahead_offset (obs : Obs) (target_lane : Int) : PFloat :=
  match (obs.vehicles.filter
      (fun v => decide (0 < v.relative_longitudinal) && v.lane_index == target_lane)) with
  | [] => .inf
  | f :: fs => .fin (fs.foldl (fun a v => min a v.relative_longitudinal) f.relative_longitudinal)

/-- Specification-worded gap reading: the absolute value of the nearest
strictly-negative offset among the vehicles of the target lane (`inf` when no
vehicle is behind). -/
def nearest_behind_offset_abs (obs : Obs) (target_lane : Int) : PFloat :=
  match (obs.vehicles.filter
      (fun v => decide (v.relative_longitudinal < 0) && v.lane_index == target_lane)) with
  | [] => .inf
  | r :: rs => .fin |rs.foldl (fun a v => max a v.relative_longitudinal) r.relative_longitudinal|

/-- Specification-worded form of the lane gap: the minimum of the nearest
ahead offset and the absolute nearest behind offset. -/
def gap_spec (obs : Obs) (target_lane : Int) : PFloat :=
  PFloat.minP (nearest_ahead_offset obs target_lane) (nearest_behind_offset_abs obs target_lane)

/-- Tactical parameter profile used by the concrete scenarios below, with the
values documented in the source comments and the specification scenarios:
target velocity 30 m/s, time headway 1.5 s, emergency TTC 2 s, minimum gap
25 m, comfortable and warning distance ratios 1.2 and 0.85, critical TTC
1.5 s; the machine is placed in the given state with the given smoothing
fields. -/
def acc_demo (s : ACCState) (last : Nat) (hold : ℚ) : ACCM :=
  { target_velocity := 30, time_headway := 1.5, emergency_ttc := 2, min_gap := 25,
    comfortable_distance_ratio := 1.2, warning_distance_ratio := 0.85, critical_ttc := 1.5,
    current_state := s, time_in_state := 0, transition_history := [],
    last_action := last, action_hold_time := hold, min_action_hold := 1.5 }

/-- LKA+ACC machine with the same tactical profile and the default LKA
parameters of the source (tolerance 0.3 m). -/
def lka_demo (s : LKAACCState) : LKAM :=
  { target_velocity := 30, time_headway := 1.5, emergency_ttc := 2, min_gap := 25,
    lane_center_tolerance := 0.3, max_lateral_acceleration := 2, min_lane_confidence := 0.6,
    current_state := s, time_in_state := 0, transition_history := [] }

/-- Highway Pilot machine with the same tactical profile and the default
lane-change parameters of the source, in the given state with the given
in-state time and lane-change context. -/
def hp_demo (s : HPCur) (tis : ℚ) (g : Option PFloat) : HPM :=
  { target_velocity := 30, time_headway := 1.5, emergency_ttc := 2, min_gap := 25,
    lane_center_tolerance := 0.3, max_lateral_acceleration := 2, min_lane_confidence := 0.6,
    min_gap_for_lane_change := 40, safe_gap_front := 25, safe_gap_rear := 20,
    lane_change_duration := 4, velocity_delta_threshold := -5,
    min_following_time_before_overtake := 10, abort_if_ttc_during_lc := 3,
    abort_if_gap_shrinks_by := 10, current_state := s, time_in_state := tis,
    transition_history := [], lane_change_start_time := 0, initial_gap_at_lc_start := g }

/-- Observation with the ego at the given velocity, lateral position and lane
and the given vehicle list. -/
def obs_demo (ego_v : ℚ) (pos_y : ℚ) (lane : Int) (vs : List Vehicle) : Obs :=
  ⟨⟨(0, pos_y), ego_v, lane⟩, vs⟩

/-- The transition helper always lands in the requested state: either it
switches to it, or the machine was in it already. -/
theorem ACCFSM.acc_transition_to_current_state (m : ACCM) (s : ACCState) :
    (ACCFSM.transition_to m s).current_state = s := by
  by_cases h : s ≠ m.current_state
  · rw [ACCFSM.transition_to, if_pos h]
  · rw [ACCFSM.transition_to, if_neg h]
    exact (not_ne_iff.mp h).symm

/-- The ACC transition helper does not touch the action-smoothing fields. -/
theorem ACCFSM.transition_to_smoothing_fields (m : ACCM) (s : ACCState) :
    (ACCFSM.transition_to m s).last_action = m.last_action ∧
    (ACCFSM.transition_to m s).action_hold_time = m.action_hold_time ∧
    (ACCFSM.transition_to m s).min_action_hold = m.min_action_hold := by
  unfold ACCFSM.transition_to
  split <;> exact ⟨rfl, rfl, rfl⟩

/-- The LKA transition helper always lands in the requested state. -/
theorem LKAACCFSM.lka_transition_to_current_state (m : LKAM) (s : LKAACCState) :
    (LKAACCFSM.transition_to m s).current_state = s := by
  by_cases h : s ≠ m.current_state
  · rw [LKAACCFSM.transition_to, if_pos h]
  · rw [LKAACCFSM.transition_to, if_neg h]
    exact (not_ne_iff.mp h).symm

/-- The Highway Pilot transition helper always lands in the requested
state. -/
theorem HighwayPilotFSM.hp_transition_to_current_state (m : HPM) (s : HPCur) :
    (HighwayPilotFSM.transition_to m s).current_state = s := by
  by_cases h : s ≠ m.current_state
  · rw [HighwayPilotFSM.transition_to, if_pos h]
  · rw [HighwayPilotFSM.transition_to, if_neg h]
    exact (not_ne_iff.mp h).symm

/-- The Highway Pilot transition helper does not touch the lane-change
context. -/
theorem HighwayPilotFSM.transition_to_context (m : HPM) (s : HPCur) :
    (HighwayPilotFSM.transition_to m s).initial_gap_at_lc_start = m.initial_gap_at_lc_start ∧
    (HighwayPilotFSM.transition_to m s).lane_change_start_time = m.lane_change_start_time := by
  unfold HighwayPilotFSM.transition_to
  split <;> exact ⟨rfl, rfl⟩

/-- When either of the claimed emergency conditions holds, the priority-1
block of ACCFSM.update short-circuits with maximum braking. -/
theorem ACCFSM.emergency_check_fires (m : ACCM) (v : ℚ) (L : Vehicle)
    (h : (L.relative_longitudinal < m.min_gap * (0.8 : ℚ) ∧
            (BaseFSM.calculate_ttc v L).ltQ m.critical_ttc) ∨
         ((BaseFSM.calculate_ttc v L).ltQ m.emergency_ttc ∧
            L.relative_longitudinal < max m.min_gap (m.time_headway * v) * (0.7 : ℚ))) :
    ACCFSM.emergency_check m v (some L) =
      Sum.inl (4, { ACCFSM.transition_to m .EMERGENCY_BRAKE with
                    last_action := 4, action_hold_time := 0 }) := by
  simp only [ACCFSM.emergency_check]
  rcases h with ⟨hd, ht⟩ | ⟨ht, hd⟩
  · rw [if_pos ⟨hd, ht⟩]
  · by_cases hA : L.relative_longitudinal < m.min_gap * (0.8 : ℚ) ∧
        (BaseFSM.calculate_ttc v L).ltQ m.critical_ttc
    · rw [if_pos hA]
    · rw [if_neg hA, if_pos ⟨ht, hd⟩]

/-- C1: whenever a leader is present and one of the two emergency conditions
holds — distance below 0.8 times min_gap with TTC below critical_ttc, or TTC
below emergency_ttc with distance below 0.7 times the safe distance — the
longitudinal-only machine returns the maximum-braking action 4 and lands in
EMERGENCY_BRAKE whatever its current state, and the early return bypasses
action smoothing entirely; the full lane-change machine does the same under
the same conditions whenever its configuration keeps the critical-TTC level
at or below emergency_ttc (its single priority-1 test being TTC below
emergency_ttc), again whatever its current state. -/
theorem claim_C1_emergency_dominance :
    (∀ (m : ACCM) (obs : Obs) (dt : ℚ) (L : Vehicle),
        BaseFSM.find_leader obs = some L →
        ((L.relative_longitudinal < m.min_gap * (0.8 : ℚ) ∧
            (BaseFSM.calculate_ttc obs.ego.velocity L).ltQ m.critical_ttc) ∨
         ((BaseFSM.calculate_ttc obs.ego.velocity L).ltQ m.emergency_ttc ∧
            L.relative_longitudinal <
              max m.min_gap (m.time_headway * obs.ego.velocity) * (0.7 : ℚ))) →
        (ACCFSM.update m obs dt).1 = 4 ∧
        (ACCFSM.update m obs dt).2.current_state = ACCState.EMERGENCY_BRAKE) ∧
    (∀ (m : HPM) (obs : Obs) (dt : ℚ) (L : Vehicle) (critical_ttc : ℚ),
        BaseFSM.find_leader obs = some L →
        critical_ttc ≤ m.emergency_ttc →
        ((L.relative_longitudinal < m.min_gap * (0.8 : ℚ) ∧
            (BaseFSM.calculate_ttc obs.ego.velocity L).ltQ critical_ttc) ∨
         ((BaseFSM.calculate_ttc obs.ego.velocity L).ltQ m.emergency_ttc ∧
            L.relative_longitudinal <
              m.time_headway * obs.ego.velocity * (0.7 : ℚ))) →
        (HighwayPilotFSM.update m obs dt).1 = 4 ∧
        (HighwayPilotFSM.update m obs dt).2.current_state =
          HPCur.hp HighwayPilotState.EMERGENCY_BRAKE) := by
  constructor
  · intro m obs dt L hL hcond
    have hfire := ACCFSM.emergency_check_fires
      { m with time_in_state := m.time_in_state + dt,
               action_hold_time := m.action_hold_time + dt } obs.ego.velocity L
      (by simpa using hcond)
    simp only [ACCFSM.update, hL, hfire]
    exact ⟨trivial, ACCFSM.acc_transition_to_current_state _ _⟩
  · intro m obs dt L critical_ttc hL hord hcond
    have ht : (BaseFSM.calculate_ttc obs.ego.velocity L).ltQ m.emergency_ttc = true := by
      rcases hcond with ⟨_, ht⟩ | ⟨ht, _⟩
      · cases httc : BaseFSM.calculate_ttc obs.ego.velocity L with
        | fin t =>
          rw [httc] at ht
          simp only [PFloat.ltQ] at ht ⊢
          exact decide_eq_true (lt_of_lt_of_le (of_decide_eq_true ht) hord)
        | inf => rw [httc] at ht; exact absurd ht (by simp [PFloat.ltQ])
      · exact ht
    simp only [HighwayPilotFSM.update, hL]
    rw [if_pos (by simpa using ht)]
    exact ⟨rfl, HighwayPilotFSM.hp_transition_to_current_state _ _⟩

/-- Witness for C1: with the demo profile, a leader 15 m ahead moving at
5 m/s against an ego at 25 m/s (TTC 0.75 s) satisfies the first emergency
condition; both machines brake maximally from CRUISING. -/
theorem claim_C1_emergency_dominance_witness :
    (ACCFSM.update (acc_demo .CRUISING 1 0) (obs_demo 25 0 0 [⟨0, 15, 5⟩]) (0.1 : ℚ)).1 = 4 ∧
    (ACCFSM.update (acc_demo .CRUISING 1 0)
        (obs_demo 25 0 0 [⟨0, 15, 5⟩]) (0.1 : ℚ)).2.current_state = ACCState.EMERGENCY_BRAKE ∧
    (HighwayPilotFSM.update (hp_demo (.hp .CRUISING) 0 none)
        (obs_demo 25 0 0 [⟨0, 15, 5⟩]) (0.1 : ℚ)).1 = 4 ∧
    (HighwayPilotFSM.update (hp_demo (.hp .CRUISING) 0 none)
        (obs_demo 25 0 0 [⟨0, 15, 5⟩]) (0.1 : ℚ)).2.current_state =
      HPCur.hp HighwayPilotState.EMERGENCY_BRAKE := by
  have hacc := claim_C1_emergency_dominance.1 (acc_demo .CRUISING 1 0)
    (obs_demo 25 0 0 [⟨0, 15, 5⟩]) (0.1 : ℚ) ⟨0, 15, 5⟩
    (by with_unfolding_all decide)
    (Or.inl (by constructor <;> with_unfolding_all decide))
  have hhp := claim_C1_emergency_dominance.2 (hp_demo (.hp .CRUISING) 0 none)
    (obs_demo 25 0 0 [⟨0, 15, 5⟩]) (0.1 : ℚ) ⟨0, 15, 5⟩ (1.5 : ℚ)
    (by with_unfolding_all decide)
    (by with_unfolding_all decide)
    (Or.inl (by constructor <;> with_unfolding_all decide))
  exact ⟨hacc.1, hacc.2, hhp.1, hhp.2⟩

/-- Counterexample to C2: with the same tactical profile (emergency_ttc 2,
min_gap 25, headway 1.5, critical 1.5) and the same observation — ego at
30 m/s, leader 40 m ahead at 9 m/s, so TTC is 40/21 below emergency_ttc but
the distance is outside both ACC emergency distance bounds — the
lane-keeping and full machines escalate to EMERGENCY_BRAKE with maximum
braking while the longitudinal-only machine stays in CRUISING and emits
IDLE: the three machines do not brake under the same condition. -/
theorem claim_C2_counterexample :
    (LKAACCFSM.update (lka_demo .CRUISING) (obs_demo 30 0 0 [⟨0, 40, 9⟩]) 1).1 = 4 ∧
    (LKAACCFSM.update (lka_demo .CRUISING) (obs_demo 30 0 0 [⟨0, 40, 9⟩]) 1).2.current_state =
      LKAACCState.EMERGENCY_BRAKE ∧
    (HighwayPilotFSM.update (hp_demo (.hp .CRUISING) 0 none)
        (obs_demo 30 0 0 [⟨0, 40, 9⟩]) 1).1 = 4 ∧
    (HighwayPilotFSM.update (hp_demo (.hp .CRUISING) 0 none)
        (obs_demo 30 0 0 [⟨0, 40, 9⟩]) 1).2.current_state =
      HPCur.hp HighwayPilotState.EMERGENCY_BRAKE ∧
    (ACCFSM.update (acc_demo .CRUISING 1 0) (obs_demo 30 0 0 [⟨0, 40, 9⟩]) 1).2.current_state =
      ACCState.CRUISING ∧
    (ACCFSM.update (acc_demo .CRUISING 1 0) (obs_demo 30 0 0 [⟨0, 40, 9⟩]) 1).1 = 1 := by
  refine ⟨?_, ?_, ?_, ?_, ?_, ?_⟩ <;> with_unfolding_all decide

/-- C2 as amended: the lane-keeping machine and the full lane-change machine
apply the same per-cycle emergency check as each other — a present leader
with TTC below emergency_ttc forces maximum braking and the transition to
their EMERGENCY_BRAKE state — but this condition involves no distance test
and is not the two-level distance-and-TTC condition of the
longitudinal-only machine (see the counterexample). -/
theorem claim_C2_amended :
    ∀ (mL : LKAM) (mH : HPM) (obs : Obs) (dt dt2 : ℚ) (L : Vehicle),
      mL.emergency_ttc = mH.emergency_ttc →
      BaseFSM.find_leader obs = some L →
      (BaseFSM.calculate_ttc obs.ego.velocity L).ltQ mL.emergency_ttc →
      (LKAACCFSM.update mL obs dt).1 = 4 ∧
      (LKAACCFSM.update mL obs dt).2.current_state = LKAACCState.EMERGENCY_BRAKE ∧
      (HighwayPilotFSM.update mH obs dt2).1 = 4 ∧
      (HighwayPilotFSM.update mH obs dt2).2.current_state =
        HPCur.hp HighwayPilotState.EMERGENCY_BRAKE := by
  intro mL mH obs dt dt2 L heq hL ht
  refine ⟨?_, ?_, ?_, ?_⟩
  · simp only [LKAACCFSM.update, hL]
    rw [if_pos (by simpa using ht)]
  · simp only [LKAACCFSM.update, hL]
    rw [if_pos (by simpa using ht)]
    exact LKAACCFSM.lka_transition_to_current_state _ _
  · simp only [HighwayPilotFSM.update, hL]
    rw [if_pos (by simpa [← heq] using ht)]
  · simp only [HighwayPilotFSM.update, hL]
    rw [if_pos (by simpa [← heq] using ht)]
    exact HighwayPilotFSM.hp_transition_to_current_state _ _

/-- Witness for the amended C2 at the counterexample observation: both the
lane-keeping and the full machine brake maximally and land in their
EMERGENCY_BRAKE state. -/
theorem claim_C2_amended_witness :
    (LKAACCFSM.update (lka_demo .FOLLOWING) (obs_demo 30 0 0 [⟨0, 40, 9⟩]) 1).1 = 4 ∧
    (LKAACCFSM.update (lka_demo .FOLLOWING) (obs_demo 30 0 0 [⟨0, 40, 9⟩]) 1).2.current_state =
      LKAACCState.EMERGENCY_BRAKE ∧
    (HighwayPilotFSM.update (hp_demo (.hp .FOLLOWING) 0 none)
        (obs_demo 30 0 0 [⟨0, 40, 9⟩]) 1).1 = 4 ∧
    (HighwayPilotFSM.update (hp_demo (.hp .FOLLOWING) 0 none)
        (obs_demo 30 0 0 [⟨0, 40, 9⟩]) 1).2.current_state =
      HPCur.hp HighwayPilotState.EMERGENCY_BRAKE :=
  claim_C2_amended (lka_demo .FOLLOWING) (hp_demo (.hp .FOLLOWING) 0 none)
    (obs_demo 30 0 0 [⟨0, 40, 9⟩]) 1 1 ⟨0, 40, 9⟩ rfl
    (by with_unfolding_all decide) (by with_unfolding_all decide)

/-- The ACC transition helper does not touch the last emitted action. -/
theorem ACCFSM.transition_to_last_action (m : ACCM) (s : ACCState) :
    (ACCFSM.transition_to m s).last_action = m.last_action := by
  unfold ACCFSM.transition_to
  split <;> rfl

/-- The ACC transition helper does not touch the hold timer. -/
theorem ACCFSM.transition_to_action_hold_time (m : ACCM) (s : ACCState) :
    (ACCFSM.transition_to m s).action_hold_time = m.action_hold_time := by
  unfold ACCFSM.transition_to
  split <;> rfl

/-- The ACC transition helper does not touch the configured hold duration. -/
theorem ACCFSM.transition_to_min_action_hold (m : ACCM) (s : ACCState) :
    (ACCFSM.transition_to m s).min_action_hold = m.min_action_hold := by
  unfold ACCFSM.transition_to
  split <;> rfl

/-- When neither emergency condition holds, the priority-1 block of
ACCFSM.update falls through to the state dispatch, leaving the
action-smoothing fields untouched (the warning level may nudge the state
towards FOLLOWING). -/
theorem ACCFSM.emergency_check_passes (m : ACCM) (v : ℚ) (leader : Option Vehicle)
    (h : ∀ L, leader = some L →
      ¬((L.relative_longitudinal < m.min_gap * (0.8 : ℚ) ∧
          (BaseFSM.calculate_ttc v L).ltQ m.critical_ttc) ∨
        ((BaseFSM.calculate_ttc v L).ltQ m.emergency_ttc ∧
          L.relative_longitudinal < max m.min_gap (m.time_headway * v) * (0.7 : ℚ)))) :
    ∃ m1, ACCFSM.emergency_check m v leader = Sum.inr m1 ∧
      m1.last_action = m.last_action ∧
      m1.action_hold_time = m.action_hold_time ∧
      m1.min_action_hold = m.min_action_hold := by
  cases leader with
  | none => exact ⟨m, rfl, rfl, rfl, rfl⟩
  | some L =>
    obtain ⟨hA, hB⟩ := not_or.mp (h L rfl)
    simp only [ACCFSM.emergency_check]
    rw [if_neg hA, if_neg hB]
    by_cases hC : L.relative_longitudinal < m.min_gap ∧
        (BaseFSM.calculate_ttc v L).gtQ m.critical_ttc
    · rw [if_pos hC]
      by_cases hS : m.current_state ≠ ACCState.FOLLOWING ∧
          m.current_state ≠ ACCState.EMERGENCY_BRAKE
      · rw [if_pos hS]
        exact ⟨_, rfl, ACCFSM.transition_to_last_action m _,
               ACCFSM.transition_to_action_hold_time m _,
               ACCFSM.transition_to_min_action_hold m _⟩
      · rw [if_neg hS]
        exact ⟨m, rfl, rfl, rfl, rfl⟩
    · rw [if_neg hC]
      exact ⟨m, rfl, rfl, rfl, rfl⟩

/-- The state dispatch of the ACC machine never touches the action-smoothing
fields: only the priority-1 emergency branches do. -/
theorem ACCFSM.dispatch_smoothing_fields (m : ACCM) (v : ℚ) (leader : Option Vehicle) :
    (ACCFSM.dispatch m v leader).2.last_action = m.last_action ∧
    (ACCFSM.dispatch m v leader).2.action_hold_time = m.action_hold_time ∧
    (ACCFSM.dispatch m v leader).2.min_action_hold = m.min_action_hold := by
  unfold ACCFSM.dispatch
  cases m.current_state <;> cases leader <;>
    simp only [ACCFSM.handle_cruising_state, ACCFSM.handle_following_state,
      ACCFSM.handle_emergency_brake_state] <;>
    first
      | (split_ifs <;>
          simp [ACCFSM.transition_to_last_action, ACCFSM.transition_to_action_hold_time,
            ACCFSM.transition_to_min_action_hold])
      | simp [ACCFSM.transition_to_last_action, ACCFSM.transition_to_action_hold_time,
          ACCFSM.transition_to_min_action_hold]

/-- Counterexample to C3: commands can toggle faster than the configured
minimum hold duration.  In the longitudinal-only machine the emergency path
overrides the hold: with the previous command FASTER changed just now (hold
timer 0) and a cycle only 0.1 s later — far less than the 1.5 s hold — an
emergency observation makes update emit SLOWER.  The lane-keeping machine has
no hold logic at all: two cycles 0.1 s apart emit FASTER then SLOWER. -/
theorem claim_C3_counterexample :
    (acc_demo .CRUISING 3 0).last_action = 3 ∧
    (acc_demo .CRUISING 3 0).action_hold_time = 0 ∧
    (acc_demo .CRUISING 3 0).min_action_hold = (1.5 : ℚ) ∧
    ((0 : ℚ) + (0.1 : ℚ) < (1.5 : ℚ)) ∧
    (ACCFSM.update (acc_demo .CRUISING 3 0) (obs_demo 25 0 0 [⟨0, 15, 5⟩]) (0.1 : ℚ)).1 = 4 ∧
    (LKAACCFSM.update (lka_demo .CRUISING) (obs_demo 29 0 0 []) (0.1 : ℚ)).1 = 3 ∧
    (LKAACCFSM.update
        (LKAACCFSM.update (lka_demo .CRUISING) (obs_demo 29 0 0 []) (0.1 : ℚ)).2
        (obs_demo 31 0 0 []) (0.1 : ℚ)).1 = 4 := by
  refine ⟨rfl, rfl, rfl, ?_, ?_, ?_, ?_⟩ <;> with_unfolding_all decide

/-- C3 as amended: only the longitudinal-only machine smooths commands, and
only outside its emergency path: on any cycle of ACCFSM.update in which
neither emergency condition fires, the emitted command differs from the
previously emitted one only if at least min_action_hold seconds have
accumulated on the hold timer; the emergency branches reset the command
immediately, and the other two machines have no hold logic. -/
theorem claim_C3_amended :
    ∀ (m : ACCM) (obs : Obs) (dt : ℚ),
      (∀ L, BaseFSM.find_leader obs = some L →
        ¬((L.relative_longitudinal < m.min_gap * (0.8 : ℚ) ∧
            (BaseFSM.calculate_ttc obs.ego.velocity L).ltQ m.critical_ttc) ∨
          ((BaseFSM.calculate_ttc obs.ego.velocity L).ltQ m.emergency_ttc ∧
            L.relative_longitudinal <
              max m.min_gap (m.time_headway * obs.ego.velocity) * (0.7 : ℚ)))) →
      (ACCFSM.update m obs dt).1 ≠ m.last_action →
      m.min_action_hold ≤ m.action_hold_time + dt := by
  intro m obs dt hno hne
  obtain ⟨m1, hck, hla, hah, hmh⟩ := ACCFSM.emergency_check_passes
    { m with time_in_state := m.time_in_state + dt,
             action_hold_time := m.action_hold_time + dt }
    obs.ego.velocity (BaseFSM.find_leader obs) (by simpa using hno)
  obtain ⟨dla, dah, dmh⟩ := ACCFSM.dispatch_smoothing_fields m1 obs.ego.velocity
    (BaseFSM.find_leader obs)
  have heq : ACCFSM.update m obs dt =
      (if (ACCFSM.dispatch m1 obs.ego.velocity (BaseFSM.find_leader obs)).1 ≠
            (ACCFSM.dispatch m1 obs.ego.velocity (BaseFSM.find_leader obs)).2.last_action ∧
          (ACCFSM.dispatch m1 obs.ego.velocity
            (BaseFSM.find_leader obs)).2.action_hold_time <
          (ACCFSM.dispatch m1 obs.ego.velocity (BaseFSM.find_leader obs)).2.min_action_hold then
        ((ACCFSM.dispatch m1 obs.ego.velocity (BaseFSM.find_leader obs)).2.last_action,
         (ACCFSM.dispatch m1 obs.ego.velocity (BaseFSM.find_leader obs)).2)
      else if (ACCFSM.dispatch m1 obs.ego.velocity (BaseFSM.find_leader obs)).1 ≠
            (ACCFSM.dispatch m1 obs.ego.velocity (BaseFSM.find_leader obs)).2.last_action then
        ((ACCFSM.dispatch m1 obs.ego.velocity (BaseFSM.find_leader obs)).1,
         { (ACCFSM.dispatch m1 obs.ego.velocity (BaseFSM.find_leader obs)).2 with
           action_hold_time := 0,
           last_action := (ACCFSM.dispatch m1 obs.ego.velocity (BaseFSM.find_leader obs)).1 })
      else
        ((ACCFSM.dispatch m1 obs.ego.velocity (BaseFSM.find_leader obs)).1,
         { (ACCFSM.dispatch m1 obs.ego.velocity (BaseFSM.find_leader obs)).2 with
           last_action := (ACCFSM.dispatch m1 obs.ego.velocity (BaseFSM.find_leader obs)).1 })) := by
    simp only [ACCFSM.update, hck]
  rw [hla] at dla
  rw [hah] at dah
  rw [hmh] at dmh
  by_cases h1 : (ACCFSM.dispatch m1 obs.ego.velocity (BaseFSM.find_leader obs)).1 ≠
      (ACCFSM.dispatch m1 obs.ego.velocity (BaseFSM.find_leader obs)).2.last_action ∧
      (ACCFSM.dispatch m1 obs.ego.velocity (BaseFSM.find_leader obs)).2.action_hold_time <
      (ACCFSM.dispatch m1 obs.ego.velocity (BaseFSM.find_leader obs)).2.min_action_hold
  · rw [heq, if_pos h1] at hne
    exact absurd dla hne
  · by_cases h2 : (ACCFSM.dispatch m1 obs.ego.velocity (BaseFSM.find_leader obs)).1 ≠
        (ACCFSM.dispatch m1 obs.ego.velocity (BaseFSM.find_leader obs)).2.last_action
    · have hge := not_lt.mp (fun hlt => h1 ⟨h2, hlt⟩)
      rw [dah, dmh] at hge
      exact hge
    · rw [heq, if_neg h1, if_neg h2] at hne
      have : (ACCFSM.dispatch m1 obs.ego.velocity (BaseFSM.find_leader obs)).1 =
          m.last_action := (not_ne_iff.mp h2).trans dla
      exact absurd this hne

/-- Witness for the amended C3: in FOLLOWING with no leader and a fully
elapsed hold timer, the command legitimately changes from IDLE to FASTER, and
the theorem yields that the hold duration had indeed elapsed. -/
theorem claim_C3_amended_witness :
    (acc_demo .FOLLOWING 1 (1.5 : ℚ)).min_action_hold ≤
      (acc_demo .FOLLOWING 1 (1.5 : ℚ)).action_hold_time + (0.1 : ℚ) :=
  claim_C3_amended (acc_demo .FOLLOWING 1 (1.5 : ℚ)) (obs_demo 20 0 0 []) (0.1 : ℚ)
    (by
      intro L h
      rw [show BaseFSM.find_leader (obs_demo 20 0 0 []) = none from by
        with_unfolding_all rfl] at h
      exact Option.noConfusion h)
    (by with_unfolding_all decide)

/-- Counterexample to C7: with no leader present, a FOLLOWING machine does
not always emit FASTER.  In the longitudinal-only machine action smoothing
withholds the FASTER candidate when the hold window has not elapsed (here the
previous command SLOWER is re-emitted even though the state does move to
CRUISING); in the lane-keeping machine a large lateral offset preempts the
longitudinal logic, the state moves to LANE_CORRECTION, not CRUISING, and the
emitted command is SLOWER. -/
theorem claim_C7_counterexample :
    (ACCFSM.update (acc_demo .FOLLOWING 4 0) (obs_demo 20 0 0 []) (0.1 : ℚ)).1 = 4 ∧
    (ACCFSM.update (acc_demo .FOLLOWING 4 0)
        (obs_demo 20 0 0 []) (0.1 : ℚ)).2.current_state = ACCState.CRUISING ∧
    (LKAACCFSM.update (lka_demo .FOLLOWING) (obs_demo 30 5 0 []) (0.1 : ℚ)).1 = 4 ∧
    (LKAACCFSM.update (lka_demo .FOLLOWING)
        (obs_demo 30 5 0 []) (0.1 : ℚ)).2.current_state = LKAACCState.LANE_CORRECTION := by
  refine ⟨?_, ?_, ?_, ?_⟩ <;> with_unfolding_all decide

/-- C7 as amended: from FOLLOWING with no leader, every machine transitions
to CRUISING and produces the FASTER candidate, but the emitted command is
FASTER unconditionally only in the full machine; in the lane-keeping machine
this requires the lateral offset to stay within tolerance (else the cycle is
preempted by LANE_CORRECTION), and in the longitudinal-only machine the
emitted command is FASTER only when action smoothing allows a change (the
hold window has elapsed, or the previous command was already FASTER). -/
theorem claim_C7_no_leader_recovery :
    (∀ (m : ACCM) (obs : Obs) (dt : ℚ),
        m.current_state = ACCState.FOLLOWING →
        BaseFSM.find_leader obs = none →
        (ACCFSM.update m obs dt).2.current_state = ACCState.CRUISING ∧
        (m.last_action = 3 ∨ m.min_action_hold ≤ m.action_hold_time + dt →
          (ACCFSM.update m obs dt).1 = 3)) ∧
    (∀ (m : LKAM) (obs : Obs) (dt : ℚ),
        m.current_state = LKAACCState.FOLLOWING →
        BaseFSM.find_leader obs = none →
        |LKAACCFSM.get_lane_offset obs| ≤ m.lane_center_tolerance →
        (LKAACCFSM.update m obs dt).1 = 3 ∧
        (LKAACCFSM.update m obs dt).2.current_state = LKAACCState.CRUISING) ∧
    (∀ (m : HPM) (obs : Obs) (dt : ℚ),
        m.current_state = HPCur.hp HighwayPilotState.FOLLOWING →
        BaseFSM.find_leader obs = none →
        (HighwayPilotFSM.update m obs dt).1 = 3 ∧
        (HighwayPilotFSM.update m obs dt).2.current_state =
          HPCur.hp HighwayPilotState.CRUISING) := by
  refine ⟨?_, ?_, ?_⟩
  · intro m obs dt hs hL
    constructor
    · simp only [ACCFSM.update, hL, ACCFSM.emergency_check, ACCFSM.dispatch, hs,
        ACCFSM.handle_following_state]
      split_ifs <;> simp [ACCFSM.acc_transition_to_current_state]
    · intro hsm
      simp only [ACCFSM.update, hL, ACCFSM.emergency_check, ACCFSM.dispatch, hs,
        ACCFSM.handle_following_state]
      split_ifs with h1 h2
      · simp only [ACCFSM.transition_to_last_action,
          ACCFSM.transition_to_action_hold_time,
          ACCFSM.transition_to_min_action_hold] at h1
        rcases hsm with hsm | hsm
        · simpa using (h1.1 (by simpa using hsm.symm)).elim
        · exact absurd h1.2 (by simpa using not_lt.mpr hsm)
      · rfl
      · rfl
  · intro m obs dt hs hL hofs
    have hnlt : ¬ (m.lane_center_tolerance < |LKAACCFSM.get_lane_offset obs|) :=
      not_lt.mpr hofs
    constructor
    · simp only [LKAACCFSM.update, hL, LKAACCFSM.post_emergency]
      rw [if_neg (by simpa using hnlt)]
      simp only [hs, LKAACCFSM.handle_following_state]
    · simp only [LKAACCFSM.update, hL, LKAACCFSM.post_emergency]
      rw [if_neg (by simpa using hnlt)]
      simp only [hs, LKAACCFSM.handle_following_state]
      exact LKAACCFSM.lka_transition_to_current_state _ _
  · intro m obs dt hs hL
    constructor
    · simp only [HighwayPilotFSM.update, hL, HighwayPilotFSM.is_in_lane_change_state, hs,
        HighwayPilotFSM.dispatch, HighwayPilotFSM.handle_following_state_hp]
      rw [if_neg (by simp), if_neg (fun h => by simpa using h.1)]
    · simp only [HighwayPilotFSM.update, hL, HighwayPilotFSM.is_in_lane_change_state, hs,
        HighwayPilotFSM.dispatch, HighwayPilotFSM.handle_following_state_hp]
      rw [if_neg (by simp), if_neg (fun h => by simpa using h.1)]
      exact HighwayPilotFSM.hp_transition_to_current_state _ _

/-- Witness for the amended C7: all three demo machines in FOLLOWING with an
empty road transition to CRUISING; the lane-keeping and full machines emit
FASTER, and so does the longitudinal-only machine since its previous command
was already FASTER. -/
theorem claim_C7_no_leader_recovery_witness :
    (ACCFSM.update (acc_demo .FOLLOWING 3 0) (obs_demo 20 0 0 []) (0.1 : ℚ)).2.current_state =
      ACCState.CRUISING ∧
    (ACCFSM.update (acc_demo .FOLLOWING 3 0) (obs_demo 20 0 0 []) (0.1 : ℚ)).1 = 3 ∧
    (LKAACCFSM.update (lka_demo .FOLLOWING) (obs_demo 30 0 0 []) (0.1 : ℚ)).1 = 3 ∧
    (LKAACCFSM.update (lka_demo .FOLLOWING) (obs_demo 30 0 0 []) (0.1 : ℚ)).2.current_state =
      LKAACCState.CRUISING ∧
    (HighwayPilotFSM.update (hp_demo (.hp .FOLLOWING) 0 none)
        (obs_demo 30 0 0 []) (0.1 : ℚ)).1 = 3 ∧
    (HighwayPilotFSM.update (hp_demo (.hp .FOLLOWING) 0 none)
        (obs_demo 30 0 0 []) (0.1 : ℚ)).2.current_state =
      HPCur.hp HighwayPilotState.CRUISING := by
  have hnone : BaseFSM.find_leader (obs_demo 20 0 0 []) = none := by with_unfolding_all rfl
  have hnone2 : BaseFSM.find_leader (obs_demo 30 0 0 []) = none := by with_unfolding_all rfl
  have hacc := claim_C7_no_leader_recovery.1 (acc_demo .FOLLOWING 3 0)
    (obs_demo 20 0 0 []) (0.1 : ℚ) rfl hnone
  have hlka := claim_C7_no_leader_recovery.2.1 (lka_demo .FOLLOWING)
    (obs_demo 30 0 0 []) (0.1 : ℚ) rfl hnone2 (by with_unfolding_all decide)
  have hhp := claim_C7_no_leader_recovery.2.2 (hp_demo (.hp .FOLLOWING) 0 none)
    (obs_demo 30 0 0 []) (0.1 : ℚ) rfl hnone2
  exact ⟨hacc.1, hacc.2 (Or.inl rfl), hlka.1, hlka.2, hhp.1, hhp.2⟩

/-- The LKA transition helper does not touch the configured lane-centre
tolerance. -/
theorem LKAACCFSM.transition_to_lane_center_tolerance (m : LKAM) (s : LKAACCState) :
    (LKAACCFSM.transition_to m s).lane_center_tolerance = m.lane_center_tolerance := by
  unfold LKAACCFSM.transition_to
  split <;> rfl

/-- Counterexample to C6: the full lane-change machine performs no per-cycle
lane position check.  In CRUISING, with no leader and the ego 5 m off the
lane-0 centre — far beyond the 0.3 m tolerance — its update leaves the state
in CRUISING instead of transitioning to LANE_CORRECTION. -/
theorem claim_C6_counterexample :
    ((0.3 : ℚ) < |LKAACCFSM.get_lane_offset (obs_demo 30 5 0 [])|) ∧
    (HighwayPilotFSM.update (hp_demo (.hp .CRUISING) 0 none)
        (obs_demo 30 5 0 []) (0.1 : ℚ)).2.current_state = HPCur.hp HighwayPilotState.CRUISING := by
  constructor <;> with_unfolding_all decide

/-- C6 as amended: only the lane-keeping machine performs the per-cycle lane
position check.  In it, on every cycle in which the TTC emergency check does
not fire, a lateral offset whose magnitude exceeds the (nonnegative)
lane-centre tolerance puts the machine in LANE_CORRECTION whatever its
current longitudinal state; the full lane-change machine has no such check
(see the counterexample). -/
theorem claim_C6_lane_correction :
    ∀ (m : LKAM) (obs : Obs) (dt : ℚ),
      0 ≤ m.lane_center_tolerance →
      (∀ L, BaseFSM.find_leader obs = some L →
        (BaseFSM.calculate_ttc obs.ego.velocity L).ltQ m.emergency_ttc = false) →
      m.lane_center_tolerance < |LKAACCFSM.get_lane_offset obs| →
      (LKAACCFSM.update m obs dt).2.current_state = LKAACCState.LANE_CORRECTION := by
  intro m obs dt htol hnoe hoff
  have hpost : ∀ m0 : LKAM, m0.lane_center_tolerance = m.lane_center_tolerance →
      m0.target_velocity = m.target_velocity →
      (LKAACCFSM.post_emergency m0 obs obs.ego.velocity
        (BaseFSM.find_leader obs)).2.current_state = LKAACCState.LANE_CORRECTION := by
    intro m0 ht0 hv0
    simp only [LKAACCFSM.post_emergency]
    rw [if_pos (by rw [ht0]; exact hoff)]
    simp only [LKAACCFSM.lka_transition_to_current_state, LKAACCFSM.handle_lane_correction_state]
    have hhalf : ¬ (|LKAACCFSM.get_lane_offset obs| <
        (LKAACCFSM.transition_to m0 LKAACCState.LANE_CORRECTION).lane_center_tolerance *
          (0.5 : ℚ)) := by
      rw [LKAACCFSM.transition_to_lane_center_tolerance, ht0]
      push_neg
      calc m.lane_center_tolerance * (0.5 : ℚ)
          ≤ m.lane_center_tolerance * 1 := by
            exact mul_le_mul_of_nonneg_left (by norm_num) htol
        _ = m.lane_center_tolerance := mul_one _
        _ ≤ |LKAACCFSM.get_lane_offset obs| := le_of_lt hoff
    rw [if_neg hhalf]
    split_ifs <;> simp [LKAACCFSM.lka_transition_to_current_state]
  cases hfl : BaseFSM.find_leader obs with
  | none =>
    simp only [LKAACCFSM.update, hfl]
    have := hpost { m with time_in_state := m.time_in_state + dt } rfl rfl
    rw [hfl] at this
    exact this
  | some L =>
    simp only [LKAACCFSM.update, hfl]
    rw [if_neg (by simp [hnoe L hfl])]
    have := hpost { m with time_in_state := m.time_in_state + dt } rfl rfl
    rw [hfl] at this
    exact this

/-- Witness for the amended C6: the lane-keeping machine in CRUISING with a
5 m offset and no leader ends the cycle in LANE_CORRECTION. -/
theorem claim_C6_lane_correction_witness :
    (LKAACCFSM.update (lka_demo .CRUISING) (obs_demo 30 5 0 []) (0.1 : ℚ)).2.current_state =
      LKAACCState.LANE_CORRECTION :=
  claim_C6_lane_correction (lka_demo .CRUISING) (obs_demo 30 5 0 []) (0.1 : ℚ)
    (by with_unfolding_all decide)
    (by
      intro L h
      rw [show BaseFSM.find_leader (obs_demo 30 5 0 []) = none from by
        with_unfolding_all rfl] at h
      exact Option.noConfusion h)
    (by with_unfolding_all decide)

/-- Counterexample to C9: in the specification scenario — CRUISING at
30 m/s, leader 40 m ahead at 20 m/s, headway 1.5 s, min_gap 25 m, so the
safe distance is 45 m — the machine does not transition to FOLLOWING: the
CRUISING branch requires the distance to be below warning_distance_ratio
(0.85) times the safe distance, i.e. below 38.25 m, so at 40 m the machine
stays in CRUISING and (being at its target velocity) emits IDLE, not
SLOWER. -/
theorem claim_C9_counterexample :
    (acc_demo .CRUISING 1 0).time_headway = (1.5 : ℚ) ∧
    (acc_demo .CRUISING 1 0).min_gap = 25 ∧
    max (25 : ℚ) ((1.5 : ℚ) * 30) = 45 ∧ (40 : ℚ) < 45 ∧
    (ACCFSM.update (acc_demo .CRUISING 1 0) (obs_demo 30 0 0 [⟨0, 40, 20⟩]) 1).2.current_state =
      ACCState.CRUISING ∧
    (ACCFSM.update (acc_demo .CRUISING 1 0) (obs_demo 30 0 0 [⟨0, 40, 20⟩]) 1).1 = 1 := by
  refine ⟨rfl, rfl, ?_, ?_, ?_, ?_⟩ <;> with_unfolding_all decide

/-- C9 as amended: with headway 1.5 s, min_gap 25 m, warning ratio 0.85,
critical TTC 1.5 s and emergency TTC 2 s, a CRUISING machine at 30 m/s whose
leader sits at 38 m (below the actual transition threshold 0.85 × 45 m =
38.25 m) with velocity 20 m/s transitions CRUISING to FOLLOWING, and the
emitted command is SLOWER whenever action smoothing permits a change (the
hold window has elapsed or the previous command was already SLOWER); at 40 m
the machine stays in CRUISING (see the counterexample). -/
theorem claim_C9_cruising_to_following :
    ∀ (m : ACCM) (obs : Obs) (dt : ℚ) (lane : Int),
      m.current_state = ACCState.CRUISING →
      m.time_headway = (1.5 : ℚ) →
      m.min_gap = 25 →
      m.warning_distance_ratio = (0.85 : ℚ) →
      m.critical_ttc = (1.5 : ℚ) →
      m.emergency_ttc = 2 →
      obs.ego.velocity = 30 →
      BaseFSM.find_leader obs = some ⟨lane, 38, 20⟩ →
      (m.last_action = 4 ∨ m.min_action_hold ≤ m.action_hold_time + dt) →
      (ACCFSM.update m obs dt).1 = 4 ∧
      (ACCFSM.update m obs dt).2.current_state = ACCState.FOLLOWING := by
  intro m obs dt lane hs hth hmg hwr hct het hv hL hsm
  have httc : BaseFSM.calculate_ttc 30 (⟨lane, 38, 20⟩ : Vehicle) =
      PFloat.fin ((38 : ℚ) / 10) := by
    simp only [BaseFSM.calculate_ttc]
    rw [if_neg (by norm_num), if_neg (by norm_num)]
    norm_num
  have hstep : ∀ m' : ACCM, m'.current_state = ACCState.CRUISING →
      m'.min_gap = 25 → m'.time_headway = (1.5 : ℚ) →
      m'.warning_distance_ratio = (0.85 : ℚ) →
      m'.critical_ttc = (1.5 : ℚ) → m'.emergency_ttc = 2 →
      ACCFSM.emergency_check m' obs.ego.velocity (some ⟨lane, 38, 20⟩) = Sum.inr m' ∧
      ACCFSM.dispatch m' obs.ego.velocity (some ⟨lane, 38, 20⟩) =
        (4, ACCFSM.transition_to m' ACCState.FOLLOWING) := by
    intro m' hs' hmg' hth' hwr' hct' het'
    constructor
    · simp only [ACCFSM.emergency_check, httc, hmg', hct', het', hth', hv]
      rw [if_neg (by norm_num), if_neg ?_, if_neg (by norm_num)]
      rintro ⟨ht, -⟩
      simp only [PFloat.ltQ] at ht
      norm_num at ht
    · simp only [ACCFSM.dispatch, hs', ACCFSM.handle_cruising_state, hmg', hth', hwr', hv]
      rw [if_pos (by norm_num [max_def])]
  obtain ⟨hck, hdisp⟩ := hstep
    { m with time_in_state := m.time_in_state + dt,
             action_hold_time := m.action_hold_time + dt }
    (by exact hs) (by exact hmg) (by exact hth) (by exact hwr) (by exact hct) (by exact het)
  have hgoal : (ACCFSM.update m obs dt).1 = 4 ∧
      (ACCFSM.update m obs dt).2.current_state = ACCState.FOLLOWING := by
    simp only [ACCFSM.update, hL, hck, hdisp, ACCFSM.transition_to_last_action,
      ACCFSM.transition_to_action_hold_time, ACCFSM.transition_to_min_action_hold]
    rcases hsm with hsm | hsm
    · rw [if_neg (fun hcon => hcon.1 hsm.symm), if_neg (fun hne => hne hsm.symm)]
      exact ⟨rfl, by simp [ACCFSM.acc_transition_to_current_state]⟩
    · rw [if_neg (fun hcon => absurd hcon.2 (not_lt.mpr (by simpa using hsm)))]
      split_ifs <;> exact ⟨rfl, by simp [ACCFSM.acc_transition_to_current_state]⟩
  exact hgoal

/-- Witness for the amended C9: the demo machine in CRUISING at 30 m/s with a
leader at 38 m moving 20 m/s (previous command already SLOWER) brakes and
moves to FOLLOWING. -/
theorem claim_C9_cruising_to_following_witness :
    (ACCFSM.update (acc_demo .CRUISING 4 0) (obs_demo 30 0 0 [⟨0, 38, 20⟩]) 1).1 = 4 ∧
    (ACCFSM.update (acc_demo .CRUISING 4 0)
        (obs_demo 30 0 0 [⟨0, 38, 20⟩]) 1).2.current_state = ACCState.FOLLOWING :=
  claim_C9_cruising_to_following (acc_demo .CRUISING 4 0) (obs_demo 30 0 0 [⟨0, 38, 20⟩]) 1 0
    rfl rfl rfl rfl rfl rfl rfl (by with_unfolding_all decide) (Or.inl rfl)

/-- When the machine is in an executing-lane-change state and the measured
target-lane gap has shrunk past the abort threshold since initiation, the
abort-condition check reports an abort regardless of the TTC clause. -/
theorem HighwayPilotFSM.check_abort_of_gap (m : HPM) (obs : Obs) (v : ℚ)
    (leader : Option Vehicle) (g0 : PFloat)
    (hg : m.initial_gap_at_lc_start = some g0)
    (hcond : (m.current_state = HPCur.hp HighwayPilotState.EXECUTING_LC_LEFT ∧
        HighwayPilotFSM.gap_shrunk_by_more_than g0
          (BaseFSM.measure_gap_on_lane obs (obs.ego.lane_index - 1))
          m.abort_if_gap_shrinks_by = true) ∨
      (m.current_state = HPCur.hp HighwayPilotState.EXECUTING_LC_RIGHT ∧
        HighwayPilotFSM.gap_shrunk_by_more_than g0
          (BaseFSM.measure_gap_on_lane obs (obs.ego.lane_index + 1))
          m.abort_if_gap_shrinks_by = true)) :
    HighwayPilotFSM.check_lane_change_abort_conditions m obs v leader = true := by
  simp only [HighwayPilotFSM.check_lane_change_abort_conditions, hg]
  split_ifs with h
  · rfl
  · rcases hcond with ⟨hs, hshr⟩ | ⟨hs, hshr⟩ <;> simp only [hs] <;> exact hshr

/-- Counterexample to C4: the abort path is not always taken.  In
EXECUTING_LC_LEFT with initial gap 40 m, the target lane measuring 25 m (a
15 m shrink, past the 10 m threshold), but a leader 10 m ahead closing at
20 m/s (TTC 0.5 s below emergency_ttc), the priority-1 emergency check wins:
update routes to EMERGENCY_BRAKE, not to ABORTING_LANE_CHANGE (the command is
still SLOWER, never a lane-change command). -/
theorem claim_C4_counterexample :
    HighwayPilotFSM.gap_shrunk_by_more_than (PFloat.fin 40)
      (BaseFSM.measure_gap_on_lane (obs_demo 30 4 1 [⟨1, 10, 10⟩, ⟨0, 25, 20⟩]) 0) 10 = true ∧
    (HighwayPilotFSM.update (hp_demo (.hp .EXECUTING_LC_LEFT) (0.2 : ℚ) (some (.fin 40)))
        (obs_demo 30 4 1 [⟨1, 10, 10⟩, ⟨0, 25, 20⟩]) (0.1 : ℚ)).1 = 4 ∧
    (HighwayPilotFSM.update (hp_demo (.hp .EXECUTING_LC_LEFT) (0.2 : ℚ) (some (.fin 40)))
        (obs_demo 30 4 1 [⟨1, 10, 10⟩, ⟨0, 25, 20⟩]) (0.1 : ℚ)).2.current_state =
      HPCur.hp HighwayPilotState.EMERGENCY_BRAKE := by
  refine ⟨?_, ?_, ?_⟩ <;> with_unfolding_all decide

/-- C4 as amended: once in an executing-lane-change state with the recorded
initial gap shrunk by more than the abort threshold, update never returns a
lane-change command: it returns SLOWER and routes to ABORTING_LANE_CHANGE —
unless the priority-1 emergency check fires first, in which case it routes to
EMERGENCY_BRAKE (still returning SLOWER).  When no leader triggers the
emergency check, the route is always ABORTING_LANE_CHANGE. -/
theorem claim_C4_abort_routing :
    ∀ (m : HPM) (obs : Obs) (dt : ℚ) (g0 : PFloat),
      m.initial_gap_at_lc_start = some g0 →
      ((m.current_state = HPCur.hp HighwayPilotState.EXECUTING_LC_LEFT ∧
          HighwayPilotFSM.gap_shrunk_by_more_than g0
            (BaseFSM.measure_gap_on_lane obs (obs.ego.lane_index - 1))
            m.abort_if_gap_shrinks_by = true) ∨
       (m.current_state = HPCur.hp HighwayPilotState.EXECUTING_LC_RIGHT ∧
          HighwayPilotFSM.gap_shrunk_by_more_than g0
            (BaseFSM.measure_gap_on_lane obs (obs.ego.lane_index + 1))
            m.abort_if_gap_shrinks_by = true)) →
      (HighwayPilotFSM.update m obs dt).1 = 4 ∧
      ((HighwayPilotFSM.update m obs dt).2.current_state =
          HPCur.hp HighwayPilotState.ABORTING_LANE_CHANGE ∨
       (HighwayPilotFSM.update m obs dt).2.current_state =
          HPCur.hp HighwayPilotState.EMERGENCY_BRAKE) ∧
      ((∀ L, BaseFSM.find_leader obs = some L →
          (BaseFSM.calculate_ttc obs.ego.velocity L).ltQ m.emergency_ttc = false) →
        (HighwayPilotFSM.update m obs dt).2.current_state =
          HPCur.hp HighwayPilotState.ABORTING_LANE_CHANGE) := by
  intro m obs dt g0 hg hcond
  have hchk : ∀ ldr, HighwayPilotFSM.check_lane_change_abort_conditions
      { m with time_in_state := m.time_in_state + dt } obs obs.ego.velocity ldr = true := by
    intro ldr
    exact HighwayPilotFSM.check_abort_of_gap _ obs obs.ego.velocity ldr g0 (by exact hg)
      (by exact hcond)
  have hin : HighwayPilotFSM.is_in_lane_change_state
      { m with time_in_state := m.time_in_state + dt } = true := by
    rcases hcond with ⟨hs, -⟩ | ⟨hs, -⟩ <;>
      simp [HighwayPilotFSM.is_in_lane_change_state, show m.current_state = _ from hs]
  cases hfl : BaseFSM.find_leader obs with
  | none =>
    simp only [HighwayPilotFSM.update, hfl, hin, hchk]
    rw [if_neg (by simp)]
    rw [if_pos ⟨trivial, trivial⟩]
    refine ⟨rfl, Or.inl (HighwayPilotFSM.hp_transition_to_current_state _ _), fun _ =>
      HighwayPilotFSM.hp_transition_to_current_state _ _⟩
  | some L =>
    by_cases hemg : (BaseFSM.calculate_ttc obs.ego.velocity L).ltQ m.emergency_ttc = true
    · simp only [HighwayPilotFSM.update, hfl]
      rw [if_pos (by simpa using hemg)]
      refine ⟨rfl, Or.inr (HighwayPilotFSM.hp_transition_to_current_state _ _), fun hnoe => ?_⟩
      exact absurd hemg (by simp [hnoe L rfl])
    · simp only [HighwayPilotFSM.update, hfl, hin, hchk]
      rw [if_neg (by simpa using hemg)]
      rw [if_pos ⟨trivial, trivial⟩]
      refine ⟨rfl, Or.inl (HighwayPilotFSM.hp_transition_to_current_state _ _), fun _ =>
        HighwayPilotFSM.hp_transition_to_current_state _ _⟩

/-- Witness for the amended C4: the specification abort scenario with no
emergency — initial gap 40 m, target lane gap 25 m, no closing leader — makes
update emit SLOWER and route to ABORTING_LANE_CHANGE. -/
theorem claim_C4_abort_routing_witness :
    (HighwayPilotFSM.update (hp_demo (.hp .EXECUTING_LC_LEFT) (0.2 : ℚ) (some (.fin 40)))
        (obs_demo 30 4 1 [⟨0, 25, 20⟩]) (0.1 : ℚ)).1 = 4 ∧
    (HighwayPilotFSM.update (hp_demo (.hp .EXECUTING_LC_LEFT) (0.2 : ℚ) (some (.fin 40)))
        (obs_demo 30 4 1 [⟨0, 25, 20⟩]) (0.1 : ℚ)).2.current_state =
      HPCur.hp HighwayPilotState.ABORTING_LANE_CHANGE := by
  have h := claim_C4_abort_routing
    (hp_demo (.hp .EXECUTING_LC_LEFT) (0.2 : ℚ) (some (.fin 40)))
    (obs_demo 30 4 1 [⟨0, 25, 20⟩]) (0.1 : ℚ) (PFloat.fin 40) rfl
    (Or.inl ⟨rfl, by with_unfolding_all decide⟩)
  refine ⟨h.1, h.2.2 ?_⟩
  intro L hL
  rw [show BaseFSM.find_leader (obs_demo 30 4 1 [⟨0, 25, 20⟩]) = none from by
    with_unfolding_all rfl] at hL
  exact Option.noConfusion hL

/-- The command and the successor control state produced by the Highway Pilot
state dispatch do not depend on the stored lane-change context: no handler
reads the context (the preparing handlers overwrite it before it could be
read). -/
theorem HighwayPilotFSM.dispatch_context_congr (m : HPM) (obs : Obs) (v : ℚ)
    (ldr : Option Vehicle) (lane : Int) (t : ℚ) (g : Option PFloat) :
    (HighwayPilotFSM.dispatch
        { m with lane_change_start_time := t, initial_gap_at_lc_start := g }
        obs v ldr lane).1 =
      (HighwayPilotFSM.dispatch m obs v ldr lane).1 ∧
    (HighwayPilotFSM.dispatch
        { m with lane_change_start_time := t, initial_gap_at_lc_start := g }
        obs v ldr lane).2.current_state =
      (HighwayPilotFSM.dispatch m obs v ldr lane).2.current_state := by
  unfold HighwayPilotFSM.dispatch
  cases hs : m.current_state with
  | lka s =>
    dsimp only
    exact ⟨rfl, hs.symm⟩
  | hp s =>
    cases s <;>
      simp only [HighwayPilotFSM.handle_cruising_state_hp,
        HighwayPilotFSM.handle_following_state_hp,
        HighwayPilotFSM.handle_evaluating_overtake_state,
        HighwayPilotFSM.handle_preparing_lane_change_left,
        HighwayPilotFSM.handle_preparing_lane_change_right,
        HighwayPilotFSM.handle_executing_lane_change_left,
        HighwayPilotFSM.handle_executing_lane_change_right,
        HighwayPilotFSM.handle_aborting_lane_change,
        HighwayPilotFSM.handle_lane_correction_state,
        HighwayPilotFSM.handle_emergency_brake_state,
        HighwayPilotFSM.get_current_time] <;>
      first
        | exact ⟨rfl, hs.symm⟩
        | (split_ifs <;>
            simp [HighwayPilotFSM.hp_transition_to_current_state, hs])
        | (cases ldr <;> (try dsimp only) <;>
            first
              | (split_ifs <;>
                  simp [HighwayPilotFSM.hp_transition_to_current_state, hs])
              | simp [HighwayPilotFSM.hp_transition_to_current_state, hs])

/-- Counterexample to C5: the lane-change context is not cleared on a
transition into a non-lane-change state.  Completing a left lane change
(time in state beyond the settle duration, empty road) transitions
EXECUTING_LC_LEFT to CRUISING, yet the stored initial gap survives the
transition unchanged. -/
theorem claim_C5_counterexample :
    (HighwayPilotFSM.update (hp_demo (.hp .EXECUTING_LC_LEFT) (0.6 : ℚ) (some (.fin 40)))
        (obs_demo 30 4 1 []) (0.1 : ℚ)).2.current_state = HPCur.hp HighwayPilotState.CRUISING ∧
    (HighwayPilotFSM.update (hp_demo (.hp .EXECUTING_LC_LEFT) (0.6 : ℚ) (some (.fin 40)))
        (obs_demo 30 4 1 []) (0.1 : ℚ)).2.initial_gap_at_lc_start = some (PFloat.fin 40) := by
  constructor <;> with_unfolding_all decide

/-- C5 as amended: the full machine never clears the lane-change context on
entering a non-lane-change state — the stored start time and initial gap
survive every such transition — but the context is read only by the abort
check, which runs only in the executing-lane-change states: whenever the
current state is not an executing-lane-change state, the emitted command and
the successor control state of update are independent of the stored
context. -/
theorem claim_C5_context_isolation :
    ∀ (m : HPM) (obs : Obs) (dt : ℚ) (t : ℚ) (g : Option PFloat),
      m.current_state ≠ HPCur.hp HighwayPilotState.EXECUTING_LC_LEFT →
      m.current_state ≠ HPCur.hp HighwayPilotState.EXECUTING_LC_RIGHT →
      (HighwayPilotFSM.update
          { m with lane_change_start_time := t, initial_gap_at_lc_start := g } obs dt).1 =
        (HighwayPilotFSM.update m obs dt).1 ∧
      (HighwayPilotFSM.update
          { m with lane_change_start_time := t, initial_gap_at_lc_start := g }
          obs dt).2.current_state =
        (HighwayPilotFSM.update m obs dt).2.current_state := by
  intro m obs dt t g hneL hneR
  have hin : HighwayPilotFSM.is_in_lane_change_state
      { m with time_in_state := m.time_in_state + dt } = false := by
    simp only [HighwayPilotFSM.is_in_lane_change_state, Bool.or_eq_false_iff,
      beq_eq_false_iff_ne, ne_eq]
    exact ⟨by simpa using hneL, by simpa using hneR⟩
  have hin2 : HighwayPilotFSM.is_in_lane_change_state
      { m with lane_change_start_time := t, initial_gap_at_lc_start := g,
               time_in_state := m.time_in_state + dt } = false := by
    simp only [HighwayPilotFSM.is_in_lane_change_state, Bool.or_eq_false_iff,
      beq_eq_false_iff_ne, ne_eq]
    exact ⟨by simpa using hneL, by simpa using hneR⟩
  simp only [HighwayPilotFSM.update, hin, hin2]
  by_cases hemg : (match BaseFSM.find_leader obs with
      | some L => (BaseFSM.calculate_ttc obs.ego.velocity L).ltQ m.emergency_ttc
      | none => false) = true
  · rw [if_pos hemg, if_pos hemg]
    exact ⟨rfl, by simp [HighwayPilotFSM.hp_transition_to_current_state]⟩
  · rw [if_neg hemg, if_neg hemg]
    rw [if_neg (by simp), if_neg (by simp)]
    exact HighwayPilotFSM.dispatch_context_congr
      { m with time_in_state := m.time_in_state + dt } obs obs.ego.velocity
      (BaseFSM.find_leader obs) obs.ego.lane_index t g

/-- Witness for the amended C5: a FOLLOWING machine carrying a stale context
behaves exactly like one with no context at all. -/
theorem claim_C5_context_isolation_witness :
    (HighwayPilotFSM.update
        { hp_demo (.hp .FOLLOWING) 0 none with
          lane_change_start_time := 7, initial_gap_at_lc_start := some (.fin 40) }
        (obs_demo 30 4 1 [⟨1, 30, 29⟩]) (0.1 : ℚ)).1 =
      (HighwayPilotFSM.update (hp_demo (.hp .FOLLOWING) 0 none)
        (obs_demo 30 4 1 [⟨1, 30, 29⟩]) (0.1 : ℚ)).1 ∧
    (HighwayPilotFSM.update
        { hp_demo (.hp .FOLLOWING) 0 none with
          lane_change_start_time := 7, initial_gap_at_lc_start := some (.fin 40) }
        (obs_demo 30 4 1 [⟨1, 30, 29⟩]) (0.1 : ℚ)).2.current_state =
      (HighwayPilotFSM.update (hp_demo (.hp .FOLLOWING) 0 none)
        (obs_demo 30 4 1 [⟨1, 30, 29⟩]) (0.1 : ℚ)).2.current_state :=
  claim_C5_context_isolation (hp_demo (.hp .FOLLOWING) 0 none)
    (obs_demo 30 4 1 [⟨1, 30, 29⟩]) (0.1 : ℚ) 7 (some (.fin 40))
    (by with_unfolding_all decide) (by with_unfolding_all decide)

/-- C8: BaseFSM._calculate_ttc returns infinity whenever the leader offset is
nonpositive or the closing rate (ego velocity minus leader velocity) is
nonpositive — in particular it is a total function and returns infinity, not
an error, at exactly zero closing rate — and returns offset divided by
closing rate otherwise; a finite result is never negative. -/
theorem claim_C8_ttc :
    (∀ (v : ℚ) (L : Vehicle),
        L.relative_longitudinal ≤ 0 ∨ v - L.velocity ≤ 0 →
        BaseFSM.calculate_ttc v L = PFloat.inf) ∧
    (∀ (v : ℚ) (L : Vehicle),
        0 < L.relative_longitudinal → 0 < v - L.velocity →
        BaseFSM.calculate_ttc v L =
          PFloat.fin (L.relative_longitudinal / (v - L.velocity))) ∧
    (∀ (v : ℚ) (L : Vehicle) (q : ℚ),
        BaseFSM.calculate_ttc v L = PFloat.fin q → 0 ≤ q) := by
  refine ⟨?_, ?_, ?_⟩
  · intro v L h
    simp only [BaseFSM.calculate_ttc]
    rcases h with h | h
    · rw [if_pos h]
    · by_cases h0 : L.relative_longitudinal ≤ 0
      · rw [if_pos h0]
      · rw [if_neg h0, if_pos h]
  · intro v L h1 h2
    simp only [BaseFSM.calculate_ttc]
    rw [if_neg (not_le.mpr h1), if_neg (not_le.mpr h2)]
  · intro v L q h
    simp only [BaseFSM.calculate_ttc] at h
    by_cases h0 : L.relative_longitudinal ≤ 0
    · rw [if_pos h0] at h; exact absurd h (by simp)
    · by_cases hv : v - L.velocity ≤ 0
      · rw [if_neg h0, if_pos hv] at h; exact absurd h (by simp)
      · rw [if_neg h0, if_neg hv] at h
        obtain rfl : L.relative_longitudinal / (v - L.velocity) = q := by
          injection h
        exact div_nonneg (le_of_lt (not_le.mp h0)) (le_of_lt (not_le.mp hv))

/-- Witness for C8 at concrete inputs: a vehicle 5 m behind the ego yields
infinity, and a vehicle 15 m ahead closed at 20 m/s yields the finite
nonnegative 0.75 s. -/
theorem claim_C8_ttc_witness :
    BaseFSM.calculate_ttc 20 ⟨0, -5, 30⟩ = PFloat.inf ∧
    BaseFSM.calculate_ttc 25 ⟨0, 15, 5⟩ = PFloat.fin (15 / (25 - 5)) ∧
    (0 : ℚ) ≤ 15 / (25 - 5) :=
  ⟨claim_C8_ttc.1 20 ⟨0, -5, 30⟩ (Or.inl (by with_unfolding_all decide)),
   by
     have h := claim_C8_ttc.2.1 25 ⟨0, 15, 5⟩ (by with_unfolding_all decide)
       (by with_unfolding_all decide)
     simpa using h,
   by
     have h := claim_C8_ttc.2.2 25 ⟨0, 15, 5⟩ (15 / (25 - 5))
       (by
         have h2 := claim_C8_ttc.2.1 25 ⟨0, 15, 5⟩ (by with_unfolding_all decide)
           (by with_unfolding_all decide)
         simpa using h2)
     exact h⟩

/-- C10: on a lane whose vehicles all sit at relative offset exactly zero the
measured gap is infinity, the same value as for an empty lane, because an
offset-zero vehicle is counted neither ahead nor behind; and in general the
measured gap is the minimum of the nearest strictly-positive offset and the
absolute value of the nearest strictly-negative offset. -/
theorem claim_C10_measure_gap :
    (∀ (obs : Obs) (lane : Int),
        obs.vehicles.filter (fun v => v.lane_index == lane) ≠ [] →
        (∀ v ∈ obs.vehicles.filter (fun v => v.lane_index == lane),
          v.relative_longitudinal = 0) →
        BaseFSM.measure_gap_on_lane obs lane = PFloat.inf) ∧
    (∀ (obs : Obs) (lane : Int),
        obs.vehicles.filter (fun v => v.lane_index == lane) = [] →
        BaseFSM.measure_gap_on_lane obs lane = PFloat.inf) ∧
    (∀ (obs : Obs) (lane : Int),
        BaseFSM.measure_gap_on_lane obs lane = gap_spec obs lane) := by
  have key : ∀ (obs : Obs) (lane : Int),
      BaseFSM.measure_gap_on_lane obs lane =
      PFloat.minP
        (match (obs.vehicles.filter (fun v => v.lane_index == lane)).filter
            (fun v => decide (0 < v.relative_longitudinal)) with
         | [] => PFloat.inf
         | f :: fs =>
           .fin (fs.foldl (fun a v => min a v.relative_longitudinal) f.relative_longitudinal))
        (match (obs.vehicles.filter (fun v => v.lane_index == lane)).filter
            (fun v => decide (v.relative_longitudinal < 0)) with
         | [] => PFloat.inf
         | r :: rs =>
           .fin |rs.foldl (fun a v => max a v.relative_longitudinal) r.relative_longitudinal|) := by
    intro obs lane
    simp only [BaseFSM.measure_gap_on_lane]
    cases h : obs.vehicles.filter (fun v => v.lane_index == lane) with
    | nil => simp [PFloat.minP]
    | cons a l => simp
  refine ⟨?_, ?_, ?_⟩
  · intro obs lane _ h0
    rw [key]
    have hf : (obs.vehicles.filter (fun v => v.lane_index == lane)).filter
        (fun v => decide (0 < v.relative_longitudinal)) = [] := by
      rw [List.filter_eq_nil_iff]
      intro v hv
      simp [h0 v hv]
    have hr : (obs.vehicles.filter (fun v => v.lane_index == lane)).filter
        (fun v => decide (v.relative_longitudinal < 0)) = [] := by
      rw [List.filter_eq_nil_iff]
      intro v hv
      simp [h0 v hv]
    rw [hf, hr]
    rfl
  · intro obs lane h
    simp only [BaseFSM.measure_gap_on_lane, h]
  · intro obs lane
    rw [key]
    simp only [gap_spec, nearest_ahead_offset, nearest_behind_offset_abs, List.filter_filter]

/-- Witness for C10 at concrete inputs: a lane holding one vehicle at offset
exactly zero measures as infinity, as does an empty lane. -/
theorem claim_C10_measure_gap_witness :
    BaseFSM.measure_gap_on_lane ⟨⟨(0, 0), 30, 0⟩, [⟨0, 0, 25⟩]⟩ 0 = PFloat.inf ∧
    BaseFSM.measure_gap_on_lane ⟨⟨(0, 0), 30, 0⟩, []⟩ 0 = PFloat.inf :=
  ⟨claim_C10_measure_gap.1 ⟨⟨(0, 0), 30, 0⟩, [⟨0, 0, 25⟩]⟩ 0
     (by with_unfolding_all decide) (by with_unfolding_all decide),
   claim_C10_measure_gap.2.1 ⟨⟨(0, 0), 30, 0⟩, []⟩ 0 (by with_unfolding_all decide)⟩

end SFSM
